import Mathlib

/-!
Verification of the time-series analysis core
(`src/model_selector.py`, `src/forecaster.py`, `src/data_loader.py`,
`src/diagnostics.py`) against its natural-language specification.

The Python floats are modelled by `NF`: either an exact rational
(`NF.fin`), positive or negative infinity, or NaN, with the IEEE-754
special-value propagation rules of numpy arithmetic.  Rounding and
signed zeros are not modelled; finite arithmetic is exact rational
arithmetic.  External statistical collaborators (the statsmodels ARIMA
fitter, the Ljung-Box table) are opaque per the spec and appear as
function parameters.
-/

/-- A numpy floating-point value idealized: an exact rational, `inf`,
`-inf`, or NaN.  Finite arithmetic is exact; only the special-value
propagation of IEEE-754 is modelled. -/
inductive NF where
  | fin (q : ℚ)
  | inf
  | ninf
  | nan
deriving DecidableEq

namespace NF

/-- IEEE addition on idealized values. -/
def add : NF → NF → NF
  | nan, _ => nan
  | _, nan => nan
  | fin a, fin b => fin (a + b)
  | fin _, inf => inf
  | inf, fin _ => inf
  | fin _, ninf => ninf
  | ninf, fin _ => ninf
  | inf, inf => inf
  | ninf, ninf => ninf
  | inf, ninf => nan
  | ninf, inf => nan

/-- IEEE subtraction on idealized values. -/
def sub : NF → NF → NF
  | nan, _ => nan
  | _, nan => nan
  | fin a, fin b => fin (a - b)
  | fin _, inf => ninf
  | fin _, ninf => inf
  | inf, fin _ => inf
  | inf, inf => nan
  | inf, ninf => inf
  | ninf, fin _ => ninf
  | ninf, ninf => nan
  | ninf, inf => ninf

/-- IEEE multiplication on idealized values. -/
def mul : NF → NF → NF
  | nan, _ => nan
  | _, nan => nan
  | fin a, fin b => fin (a * b)
  | fin a, inf => if a = 0 then nan else if 0 < a then inf else ninf
  | inf, fin b => if b = 0 then nan else if 0 < b then inf else ninf
  | fin a, ninf => if a = 0 then nan else if 0 < a then ninf else inf
  | ninf, fin b => if b = 0 then nan else if 0 < b then ninf else inf
  | inf, inf => inf
  | ninf, ninf => inf
  | inf, ninf => ninf
  | ninf, inf => ninf

/-- IEEE division on idealized values.  Division of a nonzero finite
value by zero yields a signed infinity; `0/0` yields NaN (signed zeros
are not modelled, so `x / -0` is identified with `x / 0`). -/
def div : NF → NF → NF
  | nan, _ => nan
  | _, nan => nan
  | fin a, fin b =>
      if b = 0 then (if a = 0 then nan else if 0 < a then inf else ninf)
      else fin (a / b)
  | fin _, inf => fin 0
  | fin _, ninf => fin 0
  | inf, fin b => if 0 ≤ b then inf else ninf
  | ninf, fin b => if 0 ≤ b then ninf else inf
  | inf, inf => nan
  | inf, ninf => nan
  | ninf, inf => nan
  | ninf, ninf => nan

/-- IEEE absolute value on idealized values. -/
def abs : NF → NF
  | fin a => fin |a|
  | inf => inf
  | ninf => inf
  | nan => nan

/-- Sum of a list of values, as `np.sum` (left fold from zero). -/
def sum (l : List NF) : NF := l.foldl add (fin 0)

/-- A value is finite when it is neither an infinity nor NaN. -/
def isFinite : NF → Bool
  | fin _ => true
  | _ => false

/-- The comparison used by `pandas.DataFrame.sort_values` on a float
key column: the usual order on finite values and infinities, with NaN
keys placed last (`na_position` defaults to `'last'`). -/
def sortLE : NF → NF → Bool
  | nan, nan => true
  | nan, _ => false
  | _, nan => true
  | ninf, _ => true
  | fin _, ninf => false
  | inf, ninf => false
  | inf, inf => true
  | inf, fin _ => false
  | fin _, inf => true
  | fin a, fin b => a ≤ b

end NF

/-- Python slice `l[:-k]` on a list (pandas `iloc[:-k]`): empty for
`k = 0` (because `l[:-0]` is `l[:0]`), otherwise all but the last `k`
elements. -/
def pyDropTail {α : Type} (l : List α) (k : ℕ) : List α :=
  if k = 0 then [] else l.take (l.length - k)

/-- Python slice `l[-k:]` on a list (pandas `iloc[-k:]`): the whole
list for `k = 0` (because `l[-0:]` is `l[0:]`), otherwise the last `k`
elements (all of `l` when `k ≥ len(l)`). -/
def pyTakeTail {α : Type} (l : List α) (k : ℕ) : List α :=
  if k = 0 then l else l.drop (l.length - k)

/-!
Part: Model selection (`src/model_selector.py`)

`ModelSelector.grid_search_arima` iterates over
`product(range(0, max_p + 1), range(0, max_d + 1), range(0, max_q + 1))`,
fits an ARIMA model for each order inside `try/except` (a failure is
skipped with `continue`), records a row
`{order, aic, bic, llf, params}` per success, raises `ValueError` when
no row was recorded, and otherwise sorts the rows with
`DataFrame.sort_values('aic')` and returns
`(results_df.iloc[0]['order'], results_df)`.

The statsmodels call `ARIMA(series, order).fit()` is an opaque
external collaborator: it is a parameter `fitter` producing, for each
order, either `none` (the fit raised) or `some` fit statistics.
-/

/-- The fit-quality scalars read off a successfully fitted statsmodels
model: `aic`, `bic`, `llf` floats and `params` the length of the
parameter vector. -/
structure FitStats where
  aic : NF
  bic : NF
  llf : NF
  params : ℕ
deriving DecidableEq

/-- One row appended by the grid-search loop:
`{'order': (p,d,q), 'aic': ..., 'bic': ..., 'llf': ..., 'params': ...}`. -/
structure FitRecord where
  order : ℕ × ℕ × ℕ
  aic : NF
  bic : NF
  llf : NF
  params : ℕ
deriving DecidableEq

/-- The row built from candidate order `o` and fitted statistics `s`. -/
def mkRecord (o : ℕ × ℕ × ℕ) (s : FitStats) : FitRecord :=
  ⟨o, s.aic, s.bic, s.llf, s.params⟩

/-- The candidate orders attempted by the grid search:
`itertools.product(range(max_p+1), range(max_d+1), range(max_q+1))`
(p varies slowest, q fastest). -/
def candidateOrders (max_p max_d max_q : ℕ) : List (ℕ × ℕ × ℕ) :=
  (List.range (max_p + 1)) ×ˢ ((List.range (max_d + 1)) ×ˢ (List.range (max_q + 1)))

/-- The `results` list accumulated by the grid-search loop: one record
per candidate order whose fit succeeded, in enumeration order; failed
fits are skipped by the `except ... continue`. -/
def gridSearchResults (fitter : ℕ × ℕ × ℕ → Option FitStats)
    (max_p max_d max_q : ℕ) : List FitRecord :=
  (candidateOrders max_p max_d max_q).filterMap
    (fun o => (fitter o).map (mkRecord o))

/-- The error raised when the whole grid yielded no fit
(`ValueError("No valid ARIMA models could be fitted")`, the spec's
NoViableModelError). -/
inductive GridError where
  | noViableModel
deriving DecidableEq

/-- Result of `DataFrame.sort_values('aic')`: `l'` is a permutation of
the input rows whose `aic` keys are non-decreasing (NaN last).
`sort_values` is called without `kind`, so pandas uses its default
`quicksort`, which pandas documents as NOT stable; the relation
therefore allows every sorted permutation and fixes no order among
rows with equal keys. -/
def sortValuesRel (l l' : List FitRecord) : Prop :=
  l'.Perm l ∧ l'.Pairwise (fun r s => NF.sortLE r.aic s.aic = true)

/-- `ModelSelector.grid_search_arima` as a relation between the opaque
fitter, the bounds, and the returned value: either the
no-viable-model error when every candidate failed, or
`(best_order, results_df)` where `results_df` is a sorted permutation
of the recorded rows and `best_order` is the order of its first row. -/
def grid_search_arima (fitter : ℕ × ℕ × ℕ → Option FitStats)
    (max_p max_d max_q : ℕ)
    (out : Except GridError ((ℕ × ℕ × ℕ) × List FitRecord)) : Prop :=
  let res := gridSearchResults fitter max_p max_d max_q
  (res = [] ∧ out = Except.error GridError.noViableModel) ∨
  (res ≠ [] ∧ ∃ l', ∃ h : l' ≠ [], sortValuesRel res l' ∧
    out = Except.ok ((l'.head h).order, l'))

/-- The position of a candidate order in the fixed enumeration order
of the grid search. -/
def enumRank (max_p max_d max_q : ℕ) (o : ℕ × ℕ × ℕ) : ℕ :=
  (candidateOrders max_p max_d max_q).indexOf o

/-!
Part: Forecasting and evaluation (`src/forecaster.py`)

`Forecaster.evaluate_forecasts(actual, predicted)` computes
`min_len = min(len(actual), len(predicted))`, truncates
`actual.iloc[-min_len:]` and `predicted.iloc[:min_len]`, and returns
`{'mse', 'mae', 'rmse', 'mape'}` with `rmse = np.sqrt(mse)` and
`mape = np.mean(np.abs((actual_subset - predicted_subset) /
actual_subset)) * 100`.  `mse`/`mae` of finite inputs are finite, so
they are modelled directly in `ℚ`; the `mape` pipeline divides by the
actual values with no zero-guard and is modelled in `NF`.

`Forecaster.cross_validate_forecast(series, model_order, test_size)`
splits `series.iloc[:-test_size]` / `series.iloc[-test_size:]`, fits
an ARIMA model of the given order on the training part (an opaque
external call, a parameter here), forecasts `test_size` steps and
evaluates against the test part.
-/

/-- The metrics dict returned by `evaluate_forecasts`. -/
structure EvalMetrics where
  mse : ℚ
  mae : ℚ
  rmse : ℝ
  mape : NF

/-- `Forecaster.evaluate_forecasts`: align the two series to the
minimum length (tail of `actual`, head of `predicted`), then compute
`mse`, `mae`, `rmse = sqrt(mse)` and `mape`. -/
noncomputable def evaluate_forecasts (actual predicted : List ℚ) : EvalMetrics :=
  let min_len := min actual.length predicted.length
  let actual_subset := pyTakeTail actual min_len
  let predicted_subset := predicted.take min_len
  let msev := (List.zipWith (fun a b => (a - b) ^ 2) actual_subset predicted_subset).sum
      / (min_len : ℚ)
  let maev := (List.zipWith (fun a b => |a - b|) actual_subset predicted_subset).sum
      / (min_len : ℚ)
  let mapev := NF.mul
      (NF.div
        (NF.sum (List.zipWith
          (fun a b => NF.abs (NF.div (NF.sub (NF.fin a) (NF.fin b)) (NF.fin a)))
          actual_subset predicted_subset))
        (NF.fin (min_len : ℚ)))
      (NF.fin 100)
  { mse := msev, mae := maev, rmse := Real.sqrt (msev : ℝ), mape := mapev }

/-- The errors of the cross-validation path: the spec's
InsufficientDataError (the statsmodels fit rejects a training segment
with too few observations) and its generic per-fit FitFailure. -/
inductive CvError where
  | insufficientData
  | fitFailure
deriving DecidableEq

/-- The opaque fitted-model handle used by cross-validation: all the
code needs from it is `get_forecast(steps).predicted_mean`. -/
structure CvModel where
  forecast : ℕ → List ℚ

/-- The dict returned by `cross_validate_forecast`. -/
structure CvReport where
  metrics : EvalMetrics
  forecasts : List ℚ
  actual : List ℚ
  fitted_model : CvModel

/-- `Forecaster.cross_validate_forecast`: split off the last
`test_size` points, fit on the leading part via the opaque external
`fitter` (errors propagate uncaught), forecast `test_size` steps and
evaluate against the held-out tail. -/
noncomputable def cross_validate_forecast
    (fitter : List ℚ → ℕ × ℕ × ℕ → Except CvError CvModel)
    (series : List ℚ) (model_order : ℕ × ℕ × ℕ) (test_size : ℕ) :
    Except CvError CvReport :=
  let train_series := pyDropTail series test_size
  let test_series := pyTakeTail series test_size
  match fitter train_series model_order with
  | Except.error e => Except.error e
  | Except.ok fitted_model =>
    let forecasts := fitted_model.forecast test_size
    let metrics := evaluate_forecasts test_series forecasts
    Except.ok ⟨metrics, forecasts, test_series, fitted_model⟩

/-!
Part: Data loading (`src/data_loader.py`)

A pandas DataFrame is modelled as an association list from column
names to columns; a column records whether its dtype is numeric and
its cell values (`none` is a missing value dropped by `dropna`).
`DataLoader.validate_column` raises `ValueError` (the spec's
SchemaError) for an absent column and `TypeError` for a non-numeric
one; `DataLoader.extract_time_series` validates, drops missing values
and raises `ValueError` (the spec's EmptyDataError) when nothing
remains.
-/

/-- A DataFrame column: its dtype's numeric flag and its cells. -/
structure Column where
  numeric : Bool
  values : List (Option ℚ)
deriving DecidableEq

/-- A DataFrame: an association list from column names to columns. -/
def DataFrame : Type := List (String × Column)

/-- The errors of the data-loading path, named as in the spec's
taxonomy (the source raises `ValueError`, `TypeError`, `ValueError`
respectively). -/
inductive LoadError where
  | schemaError (column : String)
  | typeError (column : String)
  | emptyDataError (column : String)
deriving DecidableEq

/-- `DataLoader.validate_column`: error if the column is absent, error
if its dtype is not numeric, otherwise `True`. -/
def validate_column (df : DataFrame) (column : String) : Except LoadError Bool :=
  match List.lookup column df with
  | none => Except.error (LoadError.schemaError column)
  | some c =>
    if c.numeric then Except.ok true
    else Except.error (LoadError.typeError column)

/-- `DataLoader.extract_time_series`: validate the column, drop the
missing values, and error when the cleaned series is empty. -/
def extract_time_series (df : DataFrame) (column : String) :
    Except LoadError (List ℚ) :=
  match validate_column df column with
  | Except.error e => Except.error e
  | Except.ok _ =>
    match List.lookup column df with
    | none => Except.error (LoadError.schemaError column)
    | some c =>
      let series := c.values.filterMap id
      if series.length = 0 then Except.error (LoadError.emptyDataError column)
      else Except.ok series

/-!
Part: Diagnostics (`src/diagnostics.py`)

`ModelDiagnostics.ljung_box_test(residuals, lags)` calls the external
`acorr_ljungbox(residuals, lags=lags, return_df=True)` (an opaque
collaborator, a parameter producing the rows `(lb_stat, lb_pvalue)`
of the returned frame), reads statistic and p-value from its last row
(`iloc[-1]`, the maximum lag), flags significance when
`p_value < alpha`, and attaches the interpretation string.
-/

/-- The dict returned by `ljung_box_test`. -/
structure LBResult where
  test_statistic : ℚ
  p_value : ℚ
  is_significant : Bool
  interpretation : String
deriving DecidableEq

/-- `ModelDiagnostics.ljung_box_test`, with the external
`acorr_ljungbox` table passed in as `acorr`; `none` models the
`IndexError` of `iloc[-1]` on an empty table. -/
def ljung_box_test (acorr : List ℚ → ℕ → List (ℚ × ℚ)) (alpha : ℚ)
    (residuals : List ℚ) (lags : ℕ) : Option LBResult :=
  match (acorr residuals lags).getLast? with
  | none => none
  | some (stat, p) =>
    some ⟨stat, p, decide (p < alpha),
      if p < alpha then "Residuals show autocorrelation"
      else "No significant autocorrelation"⟩

/-!
Part: Spec-side formulations and concrete instances

`alignedPairs` restates the spec's description of the alignment of
`evaluate` ("keeping the last minLen elements of actual and the first
minLen elements of predicted") as a list of pairs, to be compared with
the implementation.  The remaining definitions are concrete opaque
collaborators and concrete outputs used to exercise the theorems.
-/

/-- Modelled from the spec: the aligned `(actual, predicted)` pairs of
`evaluate` — the last `minLen` elements of `actual` zipped with the
first `minLen` elements of `predicted`, `minLen` the minimum of the
two lengths. -/
def alignedPairs (actual predicted : List ℚ) : List (ℚ × ℚ) :=
  (actual.drop (actual.length - min actual.length predicted.length)).zip
    (predicted.take (min actual.length predicted.length))

/-- Fit statistics with a finite aic, for concrete instances. -/
def allOkStats : FitStats := ⟨NF.fin 1, NF.fin 2, NF.fin 3, 4⟩

/-- A fitter whose every candidate succeeds with the same finite aic:
every aic is tied, so every sorted permutation is admissible. -/
def c1_fitter : ℕ × ℕ × ℕ → Option FitStats := fun _ => some allOkStats

/-- The recorded rows of the `c1_fitter` grid search over
`max_p = 2, max_d = 1, max_q = 2` in reverse enumeration order: a
sorted permutation (all aic keys are equal) that an unstable sort may
produce. -/
def c1_ranked : List FitRecord := (gridSearchResults c1_fitter 2 1 2).reverse

/-- A grid-search return value carrying `c1_ranked`. -/
def c1_out : Except GridError ((ℕ × ℕ × ℕ) × List FitRecord) :=
  Except.ok ((2, 1, 2), c1_ranked)

/-- A grid-search return value carrying the rows in enumeration order
(also sorted, since every aic key is equal). -/
def c1_ok_out : Except GridError ((ℕ × ℕ × ℕ) × List FitRecord) :=
  Except.ok ((0, 0, 0), gridSearchResults c1_fitter 2 1 2)

/-- A fitter that fails on candidate `(0,0,0)` and succeeds elsewhere. -/
def c6_fitter : ℕ × ℕ × ℕ → Option FitStats :=
  fun o => if o = (0, 0, 0) then none else some allOkStats

/-- The grid-search return value for `c6_fitter` over
`max_p = 0, max_d = 0, max_q = 1`. -/
def c6_out : Except GridError ((ℕ × ℕ × ℕ) × List FitRecord) :=
  Except.ok ((0, 0, 1), gridSearchResults c6_fitter 0 0 1)

/-- A concrete opaque fitted model: forecasts a constant zero series. -/
def cvModel0 : CvModel := ⟨fun n => List.replicate n 0⟩

/-- A concrete external ARIMA fitter for cross-validation: rejects an
empty training segment with the insufficient-data error and succeeds
otherwise. -/
def c2_fitter : List ℚ → ℕ × ℕ × ℕ → Except CvError CvModel :=
  fun train _ =>
    if train.isEmpty then Except.error CvError.insufficientData
    else Except.ok cvModel0

/-- A concrete external Ljung-Box table: one row with statistic `3`
and p-value `1/2`. -/
def c9_acorr : List ℚ → ℕ → List (ℚ × ℚ) := fun _ _ => [(3, 1 / 2)]

/-- A one-column numeric DataFrame with a missing cell. -/
def dfNum : DataFrame := [("sales", ⟨true, [some 1, none, some 2]⟩)]

/-- A one-column non-numeric DataFrame. -/
def dfBad : DataFrame := [("label", ⟨false, [none]⟩)]

/-- A numeric DataFrame whose only column is entirely missing. -/
def dfAllMissing : DataFrame := [("x", ⟨true, [none, none]⟩)]

/-!
Part: Helper lemmas
-/

theorem zipWith_eq_map_zip {α β γ : Type} (f : α → β → γ) :
    ∀ (l : List α) (l' : List β),
      List.zipWith f l l' = (l.zip l').map (fun q => f q.1 q.2)
  | [], _ => by simp
  | _ :: _, [] => by simp
  | a :: l, b :: l' => by
    simp [List.zip_cons_cons, zipWith_eq_map_zip f l l']

/-!
Part: Claims
-/

/-- Claim C7: for every `maxP, maxD, maxQ ≥ 0` the grid search
attempts exactly the Cartesian product of the inclusive ranges
`[0,maxP] × [0,maxD] × [0,maxQ]`, i.e. `(maxP+1)(maxD+1)(maxQ+1)`
distinct candidate orders in a fixed deterministic order; with all
bounds zero exactly the single candidate `(0,0,0)`, and with bounds
`2,1,2` exactly `18` candidates. -/
theorem claim_C7_grid_enumeration (max_p max_d max_q : ℕ) :
    (candidateOrders max_p max_d max_q).length
        = (max_p + 1) * (max_d + 1) * (max_q + 1)
    ∧ (∀ p d q : ℕ, (p, d, q) ∈ candidateOrders max_p max_d max_q
        ↔ p ≤ max_p ∧ d ≤ max_d ∧ q ≤ max_q)
    ∧ (candidateOrders max_p max_d max_q).Nodup
    ∧ candidateOrders 0 0 0 = [(0, 0, 0)]
    ∧ candidateOrders 1 0 1 = [(0, 0, 0), (0, 0, 1), (1, 0, 0), (1, 0, 1)]
    ∧ (candidateOrders 2 1 2).length = 18 := by
  refine ⟨?_, ?_, ?_, by decide, by decide, by decide⟩
  · simp [candidateOrders, List.length_product, List.length_range, Nat.mul_assoc]
  · intro p d q
    simp [candidateOrders, List.mem_product, List.mem_range, Nat.lt_succ_iff]
  · exact List.Nodup.product (List.nodup_range _)
      (List.Nodup.product (List.nodup_range _) (List.nodup_range _))

/-- Claim C8: `validate_column` errors with the schema error when the
column is absent and with the type error when it is non-numeric, and
returns success otherwise; `extract_time_series` first validates (any
validation error propagates), drops missing entries, errors with the
empty-data error when nothing remains, and otherwise returns the
cleaned series. -/
theorem claim_C8_loader_errors (df : DataFrame) (column : String) :
    (List.lookup column df = none →
      validate_column df column = Except.error (LoadError.schemaError column)
      ∧ extract_time_series df column
          = Except.error (LoadError.schemaError column))
    ∧ (∀ c : Column, List.lookup column df = some c →
        (c.numeric = false →
          validate_column df column = Except.error (LoadError.typeError column)
          ∧ extract_time_series df column
              = Except.error (LoadError.typeError column))
        ∧ (c.numeric = true →
            validate_column df column = Except.ok true
            ∧ (c.values.filterMap id = [] →
                extract_time_series df column
                  = Except.error (LoadError.emptyDataError column))
            ∧ (c.values.filterMap id ≠ [] →
                extract_time_series df column
                  = Except.ok (c.values.filterMap id)))) := by
  constructor
  · intro hnone
    constructor
    · simp [validate_column, hnone]
    · simp [extract_time_series, validate_column, hnone]
  · intro c hc
    constructor
    · intro hnum
      constructor
      · simp [validate_column, hc, hnum]
      · simp [extract_time_series, validate_column, hc, hnum]
    · intro hnum
      refine ⟨by simp [validate_column, hc, hnum], ?_, ?_⟩
      · intro hempty
        simp [extract_time_series, validate_column, hc, hnum, hempty]
      · intro hne
        simp [extract_time_series, validate_column, hc, hnum,
          List.length_eq_zero, hne]

/-- Witness for C8 on concrete tables: an absent column gives the
schema error, a non-numeric column the type error, a numeric column
validates, an all-missing column gives the empty-data error, and a
numeric column with one missing cell yields the cleaned series. -/
theorem claim_C8_loader_errors_witness :
    validate_column dfNum "price" = Except.error (LoadError.schemaError "price")
    ∧ validate_column dfBad "label" = Except.error (LoadError.typeError "label")
    ∧ validate_column dfNum "sales" = Except.ok true
    ∧ extract_time_series dfAllMissing "x"
        = Except.error (LoadError.emptyDataError "x")
    ∧ extract_time_series dfNum "sales" = Except.ok [1, 2] :=
  ⟨((claim_C8_loader_errors dfNum "price").1 (by decide)).1,
   (((claim_C8_loader_errors dfBad "label").2 ⟨false, [none]⟩ (by decide)).1 rfl).1,
   (((claim_C8_loader_errors dfNum "sales").2 ⟨true, [some 1, none, some 2]⟩
      (by decide)).2 rfl).1,
   ((((claim_C8_loader_errors dfAllMissing "x").2 ⟨true, [none, none]⟩
      (by decide)).2 rfl).2.1 (by decide)),
   ((((claim_C8_loader_errors dfNum "sales").2 ⟨true, [some 1, none, some 2]⟩
      (by decide)).2 rfl).2.2 (by decide))⟩

/-- Claim C9: `ljung_box_test` reads the statistic and p-value from
the last row of the Ljung-Box table (the maximum lag), flags
significance exactly when the p-value is strictly below alpha, and
attaches the matching interpretation string ("Residuals show
autocorrelation" when significant, "No significant autocorrelation"
otherwise). -/
theorem claim_C9_ljung_box (acorr : List ℚ → ℕ → List (ℚ × ℚ)) (alpha : ℚ)
    (residuals : List ℚ) (lags : ℕ) (stat p : ℚ)
    (h : (acorr residuals lags).getLast? = some (stat, p)) :
    (p < alpha →
      ljung_box_test acorr alpha residuals lags
        = some ⟨stat, p, true, "Residuals show autocorrelation"⟩)
    ∧ (¬ p < alpha →
      ljung_box_test acorr alpha residuals lags
        = some ⟨stat, p, false, "No significant autocorrelation"⟩) := by
  constructor
  · intro hlt
    simp [ljung_box_test, h, hlt]
  · intro hge
    simp [ljung_box_test, h, hge]

/-- Witness for C9: a single-row table with statistic `3` and p-value
`1/2` at alpha `1/20` yields a non-significant result with the
"No significant autocorrelation" interpretation. -/
theorem claim_C9_ljung_box_witness :
    ljung_box_test c9_acorr (1 / 20) [1, 2] 10
      = some ⟨3, 1 / 2, false, "No significant autocorrelation"⟩ :=
  (claim_C9_ljung_box c9_acorr (1 / 20) [1, 2] 10 3 (1 / 2) rfl).2
    (by norm_num)

/-- Claim C2: when testSize is at least the series length the training
slice is empty, so `cross_validate_forecast` fails with the
insufficient-data error (given that the external ARIMA fit rejects an
empty training segment with that error); with testSize one less than
the series length, it succeeds as soon as the external fit of the
training slice succeeds. -/
theorem claim_C2_cross_validate_boundary
    (fitter : List ℚ → ℕ × ℕ × ℕ → Except CvError CvModel)
    (series : List ℚ) (model_order : ℕ × ℕ × ℕ)
    (hEmpty : ∀ o, fitter [] o = Except.error CvError.insufficientData) :
    (∀ test_size, series.length ≤ test_size →
      cross_validate_forecast fitter series model_order test_size
        = Except.error CvError.insufficientData)
    ∧ (∀ m : CvModel,
        fitter (pyDropTail series (series.length - 1)) model_order
          = Except.ok m →
        ∃ r, cross_validate_forecast fitter series model_order
          (series.length - 1) = Except.ok r) := by
  constructor
  · intro test_size hts
    have htr : pyDropTail series test_size = [] := by
      unfold pyDropTail
      split
      · rfl
      · have h0 : series.length - test_size = 0 := Nat.sub_eq_zero_of_le hts
        simp [h0]
    simp [cross_validate_forecast, htr, hEmpty]
  · intro m hm
    refine ⟨⟨evaluate_forecasts (pyTakeTail series (series.length - 1))
        (m.forecast (series.length - 1)),
      m.forecast (series.length - 1),
      pyTakeTail series (series.length - 1), m⟩, ?_⟩
    simp [cross_validate_forecast, hm]

/-- Witness for C2 on the three-point series `[1,2,3]` with a fitter
that rejects exactly the empty training slice: testSize `3` and `4`
both fail with the insufficient-data error, testSize `2` succeeds. -/
theorem claim_C2_cross_validate_boundary_witness :
    cross_validate_forecast c2_fitter [1, 2, 3] (1, 0, 0) 3
      = Except.error CvError.insufficientData
    ∧ cross_validate_forecast c2_fitter [1, 2, 3] (1, 0, 0) 4
      = Except.error CvError.insufficientData
    ∧ ∃ r, cross_validate_forecast c2_fitter [1, 2, 3] (1, 0, 0) 2
      = Except.ok r :=
  have hE : ∀ o, c2_fitter [] o = Except.error CvError.insufficientData :=
    fun _ => rfl
  ⟨(claim_C2_cross_validate_boundary c2_fitter [1, 2, 3] (1, 0, 0) hE).1 3
      (by decide),
   (claim_C2_cross_validate_boundary c2_fitter [1, 2, 3] (1, 0, 0) hE).1 4
      (by decide),
   (claim_C2_cross_validate_boundary c2_fitter [1, 2, 3] (1, 0, 0) hE).2
      cvModel0 rfl⟩

/-- Claim C4: for non-empty `actual` and `predicted`,
`evaluate_forecasts` aligns them to the minimum length — keeping the
last `minLen` elements of `actual` and the first `minLen` elements of
`predicted` — computes `mse`, `mae` and `mape` over exactly those
aligned pairs and `rmse` as the square root of `mse`, and is
deterministic in its inputs. -/
theorem claim_C4_evaluate_alignment (actual predicted a2 p2 : List ℚ)
    (ha : actual ≠ []) (hp : predicted ≠ [])
    (ha2 : a2 = actual) (hp2 : p2 = predicted) :
    (alignedPairs actual predicted).length
        = min actual.length predicted.length
    ∧ (evaluate_forecasts actual predicted).mse
        = ((alignedPairs actual predicted).map (fun q => (q.1 - q.2) ^ 2)).sum
          / ((min actual.length predicted.length : ℕ) : ℚ)
    ∧ (evaluate_forecasts actual predicted).mae
        = ((alignedPairs actual predicted).map (fun q => |q.1 - q.2|)).sum
          / ((min actual.length predicted.length : ℕ) : ℚ)
    ∧ (evaluate_forecasts actual predicted).rmse
        = Real.sqrt (((evaluate_forecasts actual predicted).mse : ℚ) : ℝ)
    ∧ (evaluate_forecasts actual predicted).mape
        = NF.mul
            (NF.div
              (NF.sum ((alignedPairs actual predicted).map
                (fun q => NF.abs
                  (NF.div (NF.sub (NF.fin q.1) (NF.fin q.2)) (NF.fin q.1)))))
              (NF.fin ((min actual.length predicted.length : ℕ) : ℚ)))
            (NF.fin 100)
    ∧ evaluate_forecasts a2 p2 = evaluate_forecasts actual predicted := by
  rw [ha2, hp2]
  have hm : 1 ≤ min actual.length predicted.length :=
    le_min (List.length_pos.mpr ha) (List.length_pos.mpr hp)
  have hm0 : min actual.length predicted.length ≠ 0 := by omega
  have hsub : pyTakeTail actual (min actual.length predicted.length)
      = actual.drop (actual.length - min actual.length predicted.length) := by
    simp [pyTakeTail, hm0]
  refine ⟨?_, ?_, ?_, rfl, ?_, rfl⟩
  · simp only [alignedPairs, List.length_zip, List.length_drop,
      List.length_take]
    omega
  · simp [evaluate_forecasts, hsub, alignedPairs, zipWith_eq_map_zip]
  · simp [evaluate_forecasts, hsub, alignedPairs, zipWith_eq_map_zip]
  · simp [evaluate_forecasts, hsub, alignedPairs, zipWith_eq_map_zip]

/-- Witness for C4 at `actual = [5,6,7]`,
`predicted = [5.5, 6.5, 6.5, 999]`: the aligned length is `3`, the
metrics are computed over `[5.5, 6.5, 6.5]` against `[5,6,7]`
(`mse = 1/4`, `mae = 1/2`, `rmse = sqrt(1/4)`, `mape = 535/63`), and
re-evaluation gives the same metrics. -/
theorem claim_C4_evaluate_alignment_witness :
    (alignedPairs [5, 6, 7] [11 / 2, 13 / 2, 13 / 2, 999]).length = 3
    ∧ (evaluate_forecasts [5, 6, 7] [11 / 2, 13 / 2, 13 / 2, 999]).mse = 1 / 4
    ∧ (evaluate_forecasts [5, 6, 7] [11 / 2, 13 / 2, 13 / 2, 999]).mae = 1 / 2
    ∧ (evaluate_forecasts [5, 6, 7] [11 / 2, 13 / 2, 13 / 2, 999]).rmse
        = Real.sqrt (((1 / 4 : ℚ) : ℝ))
    ∧ (evaluate_forecasts [5, 6, 7] [11 / 2, 13 / 2, 13 / 2, 999]).mape
        = NF.fin (535 / 63)
    ∧ evaluate_forecasts [5, 6, 7] [11 / 2, 13 / 2, 13 / 2, 999]
        = evaluate_forecasts [5, 6, 7] [11 / 2, 13 / 2, 13 / 2, 999] := by
  have h := claim_C4_evaluate_alignment [5, 6, 7] [11 / 2, 13 / 2, 13 / 2, 999]
    [5, 6, 7] [11 / 2, 13 / 2, 13 / 2, 999] (by decide) (by decide) rfl rfl
  have hmse : (evaluate_forecasts [5, 6, 7] [11 / 2, 13 / 2, 13 / 2, 999]).mse
      = 1 / 4 := by
    rw [h.2.1]
    norm_num [alignedPairs]
  refine ⟨by norm_num [alignedPairs], hmse, ?_, ?_, ?_, rfl⟩
  · rw [h.2.2.1]
    norm_num [alignedPairs, abs_of_pos]
  · rw [h.2.2.2.1, hmse]
  · rw [h.2.2.2.2.1]
    norm_num [alignedPairs, NF.sum, NF.add, NF.sub, NF.div, NF.abs, NF.mul,
      abs_of_pos]

theorem NF.abs_ne_ninf (x : NF) : NF.abs x ≠ NF.ninf := by
  cases x <;> simp [NF.abs]

theorem NF.add_ne_ninf {a b : NF} (ha : a ≠ NF.ninf) (hb : b ≠ NF.ninf) :
    NF.add a b ≠ NF.ninf := by
  cases a <;> cases b <;> simp_all [NF.add]

theorem NF.add_special {a b : NF} (ha : a ≠ NF.ninf) (hb : b ≠ NF.ninf)
    (h : a = NF.inf ∨ a = NF.nan ∨ b = NF.inf ∨ b = NF.nan) :
    NF.add a b = NF.inf ∨ NF.add a b = NF.nan := by
  cases a <;> cases b <;> simp_all [NF.add]

theorem foldl_add_special :
    ∀ (l : List NF) (acc : NF), acc ≠ NF.ninf → (∀ v ∈ l, v ≠ NF.ninf) →
      (acc = NF.inf ∨ acc = NF.nan ∨ ∃ v ∈ l, v = NF.inf ∨ v = NF.nan) →
      (l.foldl NF.add acc = NF.inf ∨ l.foldl NF.add acc = NF.nan)
  | [], acc, _, _, h => by
    simp only [List.foldl_nil]
    rcases h with h | h | ⟨v, hv, _⟩
    · exact Or.inl h
    · exact Or.inr h
    · simp at hv
  | v :: l, acc, hacc, hl, h => by
    have hv : v ≠ NF.ninf := hl v (List.mem_cons_self v l)
    have hl' : ∀ w ∈ l, w ≠ NF.ninf := fun w hw => hl w (List.mem_cons_of_mem _ hw)
    have hacc' : NF.add acc v ≠ NF.ninf := NF.add_ne_ninf hacc hv
    simp only [List.foldl_cons]
    rcases h with h | h | ⟨w, hw, hsp⟩
    · have := NF.add_special hacc hv (Or.inl h)
      exact foldl_add_special l (NF.add acc v) hacc' hl'
        (by rcases this with h' | h' <;> [exact Or.inl h'; exact Or.inr (Or.inl h')])
    · have := NF.add_special hacc hv (Or.inr (Or.inl h))
      exact foldl_add_special l (NF.add acc v) hacc' hl'
        (by rcases this with h' | h' <;> [exact Or.inl h'; exact Or.inr (Or.inl h')])
    · rcases List.mem_cons.mp hw with heq | hw'
      · rw [heq] at hsp
        have := NF.add_special hacc hv
          (by rcases hsp with h' | h' <;> [exact Or.inr (Or.inr (Or.inl h'));
            exact Or.inr (Or.inr (Or.inr h'))])
        exact foldl_add_special l (NF.add acc v) hacc' hl'
          (by rcases this with h' | h' <;> [exact Or.inl h'; exact Or.inr (Or.inl h')])
      · exact foldl_add_special l (NF.add acc v) hacc' hl'
          (Or.inr (Or.inr ⟨w, hw', hsp⟩))

theorem NF.sum_special {l : List NF} (hl : ∀ v ∈ l, v ≠ NF.ninf)
    (h : ∃ v ∈ l, v = NF.inf ∨ v = NF.nan) :
    NF.sum l = NF.inf ∨ NF.sum l = NF.nan :=
  foldl_add_special l (NF.fin 0) (by simp) hl (Or.inr (Or.inr h))

theorem NF.div_special {x : NF} (c : ℚ) (hc : 0 ≤ c)
    (h : x = NF.inf ∨ x = NF.nan) :
    NF.div x (NF.fin c) = NF.inf ∨ NF.div x (NF.fin c) = NF.nan := by
  rcases h with rfl | rfl
  · exact Or.inl (by simp [NF.div, hc])
  · exact Or.inr rfl

theorem NF.mul_special {x : NF} (h : x = NF.inf ∨ x = NF.nan) :
    NF.mul x (NF.fin 100) = NF.inf ∨ NF.mul x (NF.fin 100) = NF.nan := by
  rcases h with rfl | rfl
  · exact Or.inl (by norm_num [NF.mul])
  · exact Or.inr rfl

theorem NF.abs_div_fin_zero (q : ℚ) :
    NF.abs (NF.div (NF.fin q) (NF.fin 0)) = NF.inf
    ∨ NF.abs (NF.div (NF.fin q) (NF.fin 0)) = NF.nan := by
  by_cases hq : q = 0
  · exact Or.inr (by simp [NF.div, NF.abs, hq])
  · rcases lt_or_gt_of_ne hq with hlt | hgt
    · exact Or.inl (by simp [NF.div, NF.abs, hq, not_lt_of_gt hlt])
    · exact Or.inl (by simp [NF.div, NF.abs, hq, hgt])

theorem mem_zipWith_shape {α β γ : Type} (f : α → β → γ) :
    ∀ (l : List α) (l' : List β), ∀ v ∈ List.zipWith f l l', ∃ x y, v = f x y
  | [], _, v, hv => by simp at hv
  | _ :: _, [], v, hv => by simp at hv
  | a :: l, b :: l', v, hv => by
    rcases List.mem_cons.mp hv with rfl | hv'
    · exact ⟨a, b, rfl⟩
    · exact mem_zipWith_shape f l l' v hv'

theorem mem_zipWith_of_mem_left {α β γ : Type} (f : α → β → γ) :
    ∀ (l : List α) (l' : List β), l.length ≤ l'.length →
      ∀ x ∈ l, ∃ y, f x y ∈ List.zipWith f l l'
  | [], _, _, x, hx => by simp at hx
  | a :: l, [], hlen, x, hx => by simp at hlen
  | a :: l, b :: l', hlen, x, hx => by
    rcases List.mem_cons.mp hx with rfl | hx'
    · exact ⟨b, List.mem_cons_self _ _⟩
    · obtain ⟨y, hy⟩ := mem_zipWith_of_mem_left f l l'
        (Nat.le_of_succ_le_succ hlen) x hx'
      exact ⟨y, List.mem_cons_of_mem _ hy⟩

/-- Claim C5: the mape computation divides by the aligned actual
values with no zero-guard: whenever an aligned actual value is zero,
`evaluate_forecasts` still returns (no error, no clamping) and its
mape is infinity or NaN by IEEE float semantics. -/
theorem claim_C5_mape_no_zero_guard (actual predicted : List ℚ)
    (ha : actual ≠ []) (hp : predicted ≠ [])
    (hz : (0 : ℚ) ∈ pyTakeTail actual (min actual.length predicted.length)) :
    (evaluate_forecasts actual predicted).mape = NF.inf
    ∨ (evaluate_forecasts actual predicted).mape = NF.nan := by
  have hm : 1 ≤ min actual.length predicted.length :=
    le_min (List.length_pos.mpr ha) (List.length_pos.mpr hp)
  have hm0 : min actual.length predicted.length ≠ 0 := by omega
  have hlen_a : (pyTakeTail actual (min actual.length predicted.length)).length
      = min actual.length predicted.length := by
    unfold pyTakeTail
    rw [if_neg hm0, List.length_drop]
    omega
  have hlen_p : (predicted.take (min actual.length predicted.length)).length
      = min actual.length predicted.length := by
    simp only [List.length_take]
    omega
  obtain ⟨y, hy⟩ := mem_zipWith_of_mem_left
    (fun a b => NF.abs (NF.div (NF.sub (NF.fin a) (NF.fin b)) (NF.fin a)))
    (pyTakeTail actual (min actual.length predicted.length))
    (predicted.take (min actual.length predicted.length))
    (by rw [hlen_a, hlen_p]) 0 hz
  have hterm : NF.abs (NF.div (NF.sub (NF.fin 0) (NF.fin y)) (NF.fin 0)) = NF.inf
      ∨ NF.abs (NF.div (NF.sub (NF.fin 0) (NF.fin y)) (NF.fin 0)) = NF.nan :=
    NF.abs_div_fin_zero (0 - y)
  have hall : ∀ v ∈ List.zipWith
      (fun a b => NF.abs (NF.div (NF.sub (NF.fin a) (NF.fin b)) (NF.fin a)))
      (pyTakeTail actual (min actual.length predicted.length))
      (predicted.take (min actual.length predicted.length)), v ≠ NF.ninf := by
    intro v hv
    obtain ⟨x, y', hxy⟩ := mem_zipWith_shape _ _ _ v hv
    rw [hxy]
    exact NF.abs_ne_ninf _
  have hsum := NF.sum_special hall ⟨_, hy, hterm⟩
  have hdiv := NF.div_special ((min actual.length predicted.length : ℕ) : ℚ)
    (by positivity) hsum
  exact NF.mul_special hdiv

/-- Witness for C5: with `actual = [0,1]`, `predicted = [2,3]` the
aligned actuals contain a zero and the mape degenerates to infinity
or NaN (here: infinity). -/
theorem claim_C5_mape_no_zero_guard_witness :
    (evaluate_forecasts [0, 1] [2, 3]).mape = NF.inf
    ∨ (evaluate_forecasts [0, 1] [2, 3]).mape = NF.nan :=
  claim_C5_mape_no_zero_guard [0, 1] [2, 3] (by decide) (by decide) (by decide)

theorem NF.sortLE_refl (x : NF) : NF.sortLE x x = true := by
  cases x <;> simp [NF.sortLE]

/-- Claim C1 (amended): every value returned by the grid search has
its ranked results sorted non-decreasing by aic (NaN keys last) and a
permutation of the recorded rows, with the first row aic-minimal; the
relative order of rows with equal aic is NOT specified, because
`sort_values` defaults to pandas' unstable quicksort (see the
counterexample). -/
theorem claim_C1_ranked_sorted (fitter : ℕ × ℕ × ℕ → Option FitStats)
    (max_p max_d max_q : ℕ)
    (out : Except GridError ((ℕ × ℕ × ℕ) × List FitRecord))
    (h : grid_search_arima fitter max_p max_d max_q out)
    (best : ℕ × ℕ × ℕ) (ranked : List FitRecord)
    (hout : out = Except.ok (best, ranked)) :
    ranked.Pairwise (fun r s => NF.sortLE r.aic s.aic = true)
    ∧ ranked.Perm (gridSearchResults fitter max_p max_d max_q)
    ∧ ∀ r ∈ ranked, ∃ hne : ranked ≠ [],
        NF.sortLE ((ranked.head hne).aic) r.aic = true := by
  rcases h with ⟨hres, hout'⟩ | ⟨hres, l', hne, ⟨hperm, hpair⟩, heq⟩
  · rw [hout] at hout'
    exact absurd hout' (by simp)
  · have hok := heq.symm.trans hout
    injection hok with hpr
    have hranked : ranked = l' := congrArg Prod.snd hpr.symm
    subst hranked
    refine ⟨hpair, hperm, ?_⟩
    intro r hr
    refine ⟨hne, ?_⟩
    obtain ⟨hd, tl, rfl⟩ : ∃ hd tl, ranked = hd :: tl := by
      cases ranked
      · exact absurd rfl hne
      · exact ⟨_, _, rfl⟩
    rw [List.pairwise_cons] at hpair
    rcases List.mem_cons.mp hr with heq' | hr'
    · rw [heq']
      exact NF.sortLE_refl _
    · exact hpair.1 r hr'

/-- Witness for the amended C1: for the all-ties fitter over bounds
`2,1,2`, the enumeration-order output is admissible, sorted, a
permutation of the recorded rows, and its head is aic-minimal. -/
theorem claim_C1_ranked_sorted_witness :
    (gridSearchResults c1_fitter 2 1 2).Pairwise
      (fun r s => NF.sortLE r.aic s.aic = true)
    ∧ (gridSearchResults c1_fitter 2 1 2).Perm
        (gridSearchResults c1_fitter 2 1 2)
    ∧ ∃ hne : gridSearchResults c1_fitter 2 1 2 ≠ [],
        NF.sortLE (((gridSearchResults c1_fitter 2 1 2).head hne).aic)
          ((mkRecord (2, 1, 2) allOkStats).aic) = true :=
  have hrel : grid_search_arima c1_fitter 2 1 2 c1_ok_out :=
    Or.inr ⟨by decide, gridSearchResults c1_fitter 2 1 2, by decide,
      ⟨List.Perm.refl _, by decide⟩, rfl⟩
  have H := claim_C1_ranked_sorted c1_fitter 2 1 2 c1_ok_out hrel (0, 0, 0)
    (gridSearchResults c1_fitter 2 1 2) rfl
  ⟨H.1, H.2.1, H.2.2 (mkRecord (2, 1, 2) allOkStats) (by decide)⟩

/-- Counterexample to C1 as stated: with every candidate tied at the
same aic over bounds `2,1,2`, the reverse of the recorded rows is an
admissible sorted output of the grid search, yet rows with equal aic
appear in the reverse of enumeration order — the tie-breaking part of
the claim fails, because pandas' default quicksort is not stable. -/
theorem claim_C1_counterexample :
    grid_search_arima c1_fitter 2 1 2 c1_out
    ∧ ¬ c1_ranked.Pairwise (fun r s => r.aic = s.aic →
        enumRank 2 1 2 r.order ≤ enumRank 2 1 2 s.order) := by
  constructor
  · refine Or.inr ⟨by decide, c1_ranked, by decide, ⟨?_, by decide⟩, rfl⟩
    exact List.reverse_perm _
  · decide

/-- Claim C3: when every successful external fit reports a finite aic
(the spec's assumption on CandidateFitter), every row of the ranked
results returned by the grid search has parameter count at least zero
and a finite aic — the search itself never introduces a non-finite
aic. -/
theorem claim_C3_finite_aic (fitter : ℕ × ℕ × ℕ → Option FitStats)
    (max_p max_d max_q : ℕ)
    (hFin : ∀ o s, fitter o = some s → s.aic.isFinite = true)
    (out : Except GridError ((ℕ × ℕ × ℕ) × List FitRecord))
    (h : grid_search_arima fitter max_p max_d max_q out)
    (best : ℕ × ℕ × ℕ) (ranked : List FitRecord)
    (hout : out = Except.ok (best, ranked)) :
    ∀ r ∈ ranked, 0 ≤ r.params ∧ r.aic.isFinite = true := by
  rcases h with ⟨hres, hout'⟩ | ⟨hres, l', hne, ⟨hperm, hpair⟩, heq⟩
  · rw [hout] at hout'
    exact absurd hout' (by simp)
  · have hok := heq.symm.trans hout
    injection hok with hpr
    have hranked : ranked = l' := congrArg Prod.snd hpr.symm
    subst hranked
    intro r hr
    have hr' : r ∈ gridSearchResults fitter max_p max_d max_q :=
      hperm.mem_iff.mp hr
    obtain ⟨o, ho, hfo⟩ := List.mem_filterMap.mp hr'
    obtain ⟨s, hs, hmk⟩ := Option.map_eq_some'.mp hfo
    refine ⟨Nat.zero_le _, ?_⟩
    rw [← hmk]
    exact hFin o s hs

/-- Witness for C3: for the all-finite fitter over bounds `2,1,2`,
the row recorded for candidate `(0,0,0)` sits in the ranked results
with nonnegative parameter count and finite aic. -/
theorem claim_C3_finite_aic_witness :
    0 ≤ (mkRecord (0, 0, 0) allOkStats).params
    ∧ (mkRecord (0, 0, 0) allOkStats).aic.isFinite = true :=
  have hFin : ∀ o s, c1_fitter o = some s → s.aic.isFinite = true := by
    intro o s hs
    injection hs with h'
    rw [← h']
    rfl
  have hrel : grid_search_arima c1_fitter 2 1 2 c1_ok_out :=
    Or.inr ⟨by decide, gridSearchResults c1_fitter 2 1 2, by decide,
      ⟨List.Perm.refl _, by decide⟩, rfl⟩
  claim_C3_finite_aic c1_fitter 2 1 2 hFin c1_ok_out hrel (0, 0, 0)
    (gridSearchResults c1_fitter 2 1 2) rfl
    (mkRecord (0, 0, 0) allOkStats) (by decide)

/-- Claim C6: the grid search returns the no-viable-model error
exactly when every candidate fit failed, and on success the ranked
results contain exactly the rows of the successful candidates — a
failed candidate is silently excluded and never aborts the search
over the remaining candidates. -/
theorem claim_C6_failures_nonfatal (fitter : ℕ × ℕ × ℕ → Option FitStats)
    (max_p max_d max_q : ℕ)
    (out : Except GridError ((ℕ × ℕ × ℕ) × List FitRecord))
    (h : grid_search_arima fitter max_p max_d max_q out) :
    (out = Except.error GridError.noViableModel
      ↔ ∀ o ∈ candidateOrders max_p max_d max_q, fitter o = none)
    ∧ ∀ best ranked, out = Except.ok (best, ranked) →
        ∀ r : FitRecord, r ∈ ranked
          ↔ ∃ o ∈ candidateOrders max_p max_d max_q,
              ∃ s, fitter o = some s ∧ r = mkRecord o s := by
  have hres_iff : gridSearchResults fitter max_p max_d max_q = []
      ↔ ∀ o ∈ candidateOrders max_p max_d max_q, fitter o = none := by
    rw [gridSearchResults, List.filterMap_eq_nil_iff]
    constructor
    · intro hh o ho
      have := hh o ho
      simpa using this
    · intro hh o ho
      simp [hh o ho]
  rcases h with ⟨hres, hout⟩ | ⟨hres, l', hne, ⟨hperm, hpair⟩, heq⟩
  · constructor
    · rw [hout]
      exact ⟨fun _ => hres_iff.mp hres, fun _ => rfl⟩
    · intro best ranked hok
      rw [hout] at hok
      exact absurd hok (by simp)
  · constructor
    · constructor
      · intro hbad
        rw [heq] at hbad
        exact absurd hbad (by simp)
      · intro hall
        exact absurd (hres_iff.mpr hall) hres
    · intro best ranked hok
      have hok2 := heq.symm.trans hok
      injection hok2 with hpr
      have hranked : ranked = l' := congrArg Prod.snd hpr.symm
      subst hranked
      intro r
      rw [hperm.mem_iff, gridSearchResults, List.mem_filterMap]
      constructor
      · rintro ⟨o, ho, hfo⟩
        obtain ⟨s, hs, hmk⟩ := Option.map_eq_some'.mp hfo
        exact ⟨o, ho, s, hs, hmk.symm⟩
      · rintro ⟨o, ho, s, hs, rfl⟩
        exact ⟨o, ho, by simp [hs]⟩

/-- Witness for C6: for the fitter that fails only on `(0,0,0)` over
bounds `0,0,1`, the search does not return the no-viable-model error
(not all candidates failed) and its ranked results contain exactly
the row of the surviving candidate `(0,0,1)`. -/
theorem claim_C6_failures_nonfatal_witness :
    (c6_out = Except.error GridError.noViableModel
      ↔ ∀ o ∈ candidateOrders 0 0 1, c6_fitter o = none)
    ∧ (mkRecord (0, 0, 1) allOkStats ∈ gridSearchResults c6_fitter 0 0 1
        ↔ ∃ o ∈ candidateOrders 0 0 1,
            ∃ s, c6_fitter o = some s
              ∧ mkRecord (0, 0, 1) allOkStats = mkRecord o s) :=
  have hrel : grid_search_arima c6_fitter 0 0 1 c6_out :=
    Or.inr ⟨by decide, gridSearchResults c6_fitter 0 0 1, by decide,
      ⟨List.Perm.refl _, by decide⟩, rfl⟩
  have H := claim_C6_failures_nonfatal c6_fitter 0 0 1 c6_out hrel
  ⟨H.1, H.2 (0, 0, 1) (gridSearchResults c6_fitter 0 0 1) rfl
    (mkRecord (0, 0, 1) allOkStats)⟩

/-- Claim C10: whenever the grid search succeeds, the best order it
returns equals the `order` field of the first entry of the ranked
results it returns. -/
theorem claim_C10_best_matches_head (fitter : ℕ × ℕ × ℕ → Option FitStats)
    (max_p max_d max_q : ℕ)
    (out : Except GridError ((ℕ × ℕ × ℕ) × List FitRecord))
    (h : grid_search_arima fitter max_p max_d max_q out)
    (best : ℕ × ℕ × ℕ) (ranked : List FitRecord)
    (hout : out = Except.ok (best, ranked)) :
    ∃ hne : ranked ≠ [], best = (ranked.head hne).order := by
  rcases h with ⟨hres, hout'⟩ | ⟨hres, l', hne, ⟨hperm, hpair⟩, heq⟩
  · rw [hout] at hout'
    exact absurd hout' (by simp)
  · have hok := heq.symm.trans hout
    injection hok with hpr
    have hranked : ranked = l' := congrArg Prod.snd hpr.symm
    have hbest : best = (l'.head hne).order := congrArg Prod.fst hpr.symm
    subst hranked
    exact ⟨hne, hbest⟩

/-- Witness for C10: the all-ties search over bounds `2,1,2` with the
enumeration-order output returns best order `(0,0,0)`, the order of
the first ranked row. -/
theorem claim_C10_best_matches_head_witness :
    ∃ hne : gridSearchResults c1_fitter 2 1 2 ≠ [],
      (0, 0, 0) = ((gridSearchResults c1_fitter 2 1 2).head hne).order :=
  have hrel : grid_search_arima c1_fitter 2 1 2 c1_ok_out :=
    Or.inr ⟨by decide, gridSearchResults c1_fitter 2 1 2, by decide,
      ⟨List.Perm.refl _, by decide⟩, rfl⟩
  claim_C10_best_matches_head c1_fitter 2 1 2 c1_ok_out hrel (0, 0, 0)
    (gridSearchResults c1_fitter 2 1 2) rfl

/-- Witness for C7 at concrete bounds: exactly one candidate with all
bounds zero and exactly `18` candidates with bounds `2,1,2`. -/
theorem claim_C7_grid_enumeration_witness :
    candidateOrders 0 0 0 = [(0, 0, 0)]
    ∧ (candidateOrders 2 1 2).length = 18 :=
  ⟨(claim_C7_grid_enumeration 0 0 0).2.2.2.1,
   (claim_C7_grid_enumeration 2 1 2).2.2.2.2.2⟩
